import Mathlib

/-!
Shallow embedding of the SVG texture-atlas generator of
`assets/ui/script.py`: grid layout, monochrome-white color
normalization, atlas assembly by pasting, and mapping-file (index)
generation.

External collaborators (cairosvg rasterization, PIL Lanczos
resampling, PIL masked paste compositing) are black boxes: they enter
the embedding as function parameters whose pixel output is
unconstrained.  PIL's `resize((size, size))` fixes the output
dimensions exactly, which the embedding records in `resizeModel`.
The module constants `GRID_COLS` and `OVERSAMPLE` are modelled as
explicit parameters of `createTextureAtlasWith`, with the script-level
entry point `create_texture_atlas` instantiating them.
-/

/-- An RGBA pixel; channels are naturals (0..255 in the program). -/
structure RGBA where
  r : Nat
  g : Nat
  b : Nat
  a : Nat
deriving DecidableEq, Repr

/-- The fully transparent pixel `(0, 0, 0, 0)` used for the fresh canvas. -/
def clearPixel : RGBA := ⟨0, 0, 0, 0⟩

/-- A raster image: dimensions plus a pixel lookup function.  Only the
pixels with `x < width` and `y < height` are meaningful. -/
structure Img where
  width : Nat
  height : Nat
  pix : Nat → Nat → RGBA

/-- An SVG source file: its stable identifier (`Path.stem`, the file
base name with the `.svg` extension stripped) and its rendering
behaviour: for each oversample scale, `cairosvg.svg2png` either raises
(`Except.error`) or returns an RGBA raster (`Except.ok`). -/
structure SvgFile where
  stem : String
  content : Nat → Except String Img

/-- A default `SvgFile`, used only as the `getD` fallback in statements. -/
def defaultSvg : SvgFile := ⟨"", fun _ => Except.error ""⟩

/-- The on-disk file name of an SVG source as seen by
`svg_folder.glob("*.svg")`: stem plus the `.svg` extension.  `sorted`
orders the glob results by this full name. -/
def fileName (f : SvgFile) : String := f.stem ++ ".svg"

/-- Strict lexicographic comparison of character lists by code point,
as Python compares strings. -/
def charListLt : List Char → List Char → Bool
  | _, [] => false
  | [], _ :: _ => true
  | a :: as, b :: bs =>
    if a.toNat < b.toNat then true
    else if b.toNat < a.toNat then false
    else charListLt as bs

/-- String `≤` by code points: `s ≤ t` iff not `t < s`. -/
def strLeB (s t : String) : Bool := ! charListLt t.data s.data

/-- Comparator used by `sorted(svg_folder.glob("*.svg"))`: file names
(including the extension) compared lexicographically. -/
def fileLeB (f g : SvgFile) : Bool := strLeB (fileName f) (fileName g)

/-- `sorted(svg_folder.glob("*.svg"))`: a stable sort of the
discovered SVG files by their full file name. -/
def sortFiles (files : List SvgFile) : List SvgFile :=
  List.insertionSort (fun f g => fileLeB f g = true) files

/-- The per-pixel body of the normalization loop in
`svg_to_white_png`: `if a: pix[x, y] = (255, 255, 255, a)`. -/
def normalizePixel (p : RGBA) : RGBA :=
  if p.a ≠ 0 then ⟨255, 255, 255, p.a⟩ else p

/-- The normalization loop of `svg_to_white_png`: every in-bounds
pixel with nonzero alpha becomes pure white with its alpha kept. -/
def normalizeImage (img : Img) : Img :=
  { width := img.width
    height := img.height
    pix := fun x y =>
      if x < img.width ∧ y < img.height then normalizePixel (img.pix x y)
      else img.pix x y }

/-- The type of the black-box Lanczos resampler (PIL `Image.resize`):
given the source image, the target dimensions and a coordinate, it
produces a pixel. -/
abbrev ResizeFn : Type := Img → Nat → Nat → Nat → Nat → RGBA

/-- The type of the black-box masked-paste compositing operation of
PIL `Image.paste(icon, (x, y), icon)`: combines a source pixel (also
acting as the mask) with the destination pixel. -/
abbrev CompositeFn : Type := RGBA → RGBA → RGBA

/-- The raster a successful PIL resize returns: pixel content is the
black box `lanczos`, dimensions are exactly the requested ones. -/
def resizedImg (lanczos : ResizeFn) (img : Img) (w h : Nat) : Img :=
  { width := w, height := h, pix := fun x y => lanczos img w h x y }

/-- `img.resize((w, h), Image.Resampling.LANCZOS)`: Pillow raises
`ValueError("height and width must be > 0")` when a requested
dimension is not positive; otherwise it returns a raster of exactly
the requested dimensions whose pixel content is the black box
`lanczos`. -/
def resizeModel (lanczos : ResizeFn) (img : Img) (w h : Nat) : Except String Img :=
  if w = 0 ∨ h = 0 then Except.error "height and width must be > 0"
  else Except.ok (resizedImg lanczos img w h)

/-- `svg_to_white_png(svg_path, size, oversample)`: render the SVG at
the oversample scale (may raise), resize to `(size, size)` with
Lanczos (raises on a non-positive size), then run the
white-normalization loop.  A raised error propagates to the caller. -/
def svg_to_white_png (lanczos : ResizeFn) (f : SvgFile) (size oversample : Nat) :
    Except String Img :=
  match f.content oversample with
  | Except.error e => Except.error e
  | Except.ok rendered =>
      match resizeModel lanczos rendered size size with
      | Except.error e => Except.error e
      | Except.ok resized => Except.ok (normalizeImage resized)

/-- `atlas.paste(icon_img, (x, y), icon_img)`: inside the icon's
rectangle the canvas pixel is combined with the icon pixel by the
black-box masked compositing; outside it the canvas is untouched. -/
def pasteImage (cp : CompositeFn) (canvas icon : Img) (px py : Nat) : Img :=
  { canvas with
    pix := fun x y =>
      if px ≤ x ∧ x < px + icon.width ∧ py ≤ y ∧ y < py + icon.height then
        cp (icon.pix (x - px) (y - py)) (canvas.pix x y)
      else canvas.pix x y }

/-- `col = idx % GRID_COLS`. -/
def placeCol (i cols : Nat) : Nat := i % cols

/-- `row = idx // GRID_COLS`. -/
def placeRow (i cols : Nat) : Nat := i / cols

/-- `x, y = col * icon_size, row * icon_size`. -/
def placePix (i cols s : Nat) : Nat × Nat :=
  (placeCol i cols * s, placeRow i cols * s)

/-- `grid_rows = math.ceil(total_icons / GRID_COLS)`, as the exact
ceiling division (Python's float division is exact at the magnitudes
an atlas can reach). -/
def gridRows (total cols : Nat) : Nat := (total + cols - 1) / cols

/-- Spaces used by the `{idx:3d}` format padding. -/
def spaces : Nat → String
  | 0 => ""
  | n + 1 => " " ++ spaces n

/-- `f"{idx:3d}"`: the decimal representation right-aligned to width 3. -/
def fmtIdx (idx : Nat) : String :=
  spaces (3 - (toString idx).length) ++ toString idx

/-- One mapping line `f"{idx:3d}\t{svg_file.stem}\t{col}\t{row}\n"`. -/
def mappingLine (idx : Nat) (stem : String) (col row : Nat) : String :=
  fmtIdx idx ++ "\t" ++ stem ++ "\t" ++ toString col ++ "\t" ++ toString row ++ "\n"

/-- The four header lines written before the mapping records. -/
def mappingHeader (icon_size cols rows : Nat) : String :=
  "# Texture Atlas Mapping\n" ++
  "# Auflösung (px): " ++ toString icon_size ++ "\n" ++
  "# Spalten: " ++ toString cols ++ "  Zeilen: " ++ toString rows ++ "\n" ++
  "# Format: ID\tName\tCol\tRow\n"

/-- The fresh canvas `Image.new("RGBA", (atlas_w, atlas_h), (0, 0, 0, 0))`. -/
def emptyCanvas (w h : Nat) : Img := ⟨w, h, fun _ _ => clearPixel⟩

/-- The `for idx, svg_file in enumerate(svg_files)` loop body of
`create_texture_atlas`: renders each file, pastes it at its placement
and appends its mapping line.  A rendering exception aborts the loop
and propagates. -/
def atlasFold (lanczos : ResizeFn) (cp : CompositeFn) (cols icon_size oversample : Nat) :
    List SvgFile → Nat → Img → List String → Except String (Img × List String)
  | [], _, atlas, lines => Except.ok (atlas, lines)
  | f :: fs, idx, atlas, lines =>
    match svg_to_white_png lanczos f icon_size oversample with
    | Except.error e => Except.error e
    | Except.ok icon_img =>
        atlasFold lanczos cp cols icon_size oversample fs (idx + 1)
          (pasteImage cp atlas icon_img (placeCol idx cols * icon_size)
            (placeRow idx cols * icon_size))
          (lines ++ [mappingLine idx f.stem (placeCol idx cols) (placeRow idx cols)])

/-- The pair of artifacts `create_texture_atlas` persists for a
non-empty icon set: the atlas image and the mapping text, each with
its output file name. -/
structure AtlasOutput where
  atlas : Img
  atlasFileName : String
  mappingFileName : String
  mappingText : String

/-- `create_texture_atlas(svg_folder, output_folder, icon_size)` with
the module constants `GRID_COLS` and `OVERSAMPLE` made explicit:
sort the discovered files, return `none` (skip, nothing written) when
there are none, otherwise compute the grid, assemble the atlas and the
mapping text.  A rendering exception propagates as `Except.error`. -/
def createTextureAtlasWith (lanczos : ResizeFn) (cp : CompositeFn)
    (cols icon_size oversample : Nat) (folder : List SvgFile) :
    Except String (Option AtlasOutput) :=
  let svg_files := sortFiles folder
  if svg_files.isEmpty then Except.ok none
  else
    let total_icons := svg_files.length
    let grid_rows := gridRows total_icons cols
    let atlas_w := cols * icon_size
    let atlas_h := grid_rows * icon_size
    match atlasFold lanczos cp cols icon_size oversample svg_files 0
        (emptyCanvas atlas_w atlas_h) [] with
    | Except.error e => Except.error e
    | Except.ok (atlas, mapping_lines) =>
        Except.ok (some
          { atlas := atlas
            atlasFileName := "texture_atlas_" ++ toString cols ++ "x" ++
              toString grid_rows ++ "_" ++ toString icon_size ++ "px.png"
            mappingFileName := "icon_mapping_" ++ toString icon_size ++ "px.txt"
            mappingText := mappingHeader icon_size cols grid_rows ++
              String.join mapping_lines })

/-- `ICON_SIZES: List[int] = [16, 24, 32, 64]`. -/
def ICON_SIZES : List Nat := [16, 24, 32, 64]

/-- `GRID_COLS: int = 20`. -/
def GRID_COLS : Nat := 20

/-- `OVERSAMPLE: int = 4`. -/
def OVERSAMPLE : Nat := 4

/-- The script-level `create_texture_atlas`, with the module constants
instantiated. -/
def create_texture_atlas (lanczos : ResizeFn) (cp : CompositeFn)
    (folder : List SvgFile) (icon_size : Nat) : Except String (Option AtlasOutput) :=
  createTextureAtlasWith lanczos cp GRID_COLS icon_size OVERSAMPLE folder

/-! ### Observables and helpers used to state the properties -/

/-- Whether `cairosvg.svg2png` succeeded (did not raise). -/
def isOkImg : Except String Img → Bool
  | Except.ok _ => true
  | Except.error _ => false

/-- The rendered image of a successful `cairosvg.svg2png` call. -/
def okImg : Except String Img → Img
  | Except.ok i => i
  | Except.error _ => emptyCanvas 0 0

/-- The icon raster `svg_to_white_png` produces when both rendering
and resizing succeed: the oversampled render, Lanczos-resized to the
icon size and white-normalized. -/
def whiteIcon (lanczos : ResizeFn) (f : SvgFile) (size oversample : Nat) : Img :=
  normalizeImage (resizedImg lanczos (okImg (f.content oversample)) size size)

/-- Pairs each list element with its 0-based position, starting at `n`
(Python's `enumerate`). -/
def enumIdx (n : Nat) : List α → List (Nat × α)
  | [] => []
  | a :: l => (n, a) :: enumIdx (n + 1) l

/-- One assembly step as performed for loop index `p.1` on file `p.2`:
paste the normalized icon at the placement pixel of index `p.1`. -/
def pasteStep (lanczos : ResizeFn) (cp : CompositeFn) (cols s os : Nat)
    (canvas : Img) (p : Nat × SvgFile) : Img :=
  pasteImage cp canvas (whiteIcon lanczos p.2 s os)
    (placeCol p.1 cols * s) (placeRow p.1 cols * s)

/-- The mapping record written for loop index `p.1` on file `p.2`. -/
def lineOfPair (cols : Nat) (p : Nat × SvgFile) : String :=
  mappingLine p.1 p.2.stem (placeCol p.1 cols) (placeRow p.1 cols)

/-- Whether a job produced output artifacts (no exception, non-empty set). -/
def isOkSome : Except String (Option AtlasOutput) → Bool
  | Except.ok (some _) => true
  | _ => false

/-- The atlas image of a job that produced output. -/
def atlasImgOf : Except String (Option AtlasOutput) → Option Img
  | Except.ok (some o) => some o.atlas
  | _ => none

/-- The canvas dimensions of a job that produced output. -/
def atlasDimsOf : Except String (Option AtlasOutput) → Option (Nat × Nat)
  | Except.ok (some o) => some (o.atlas.width, o.atlas.height)
  | _ => none

/-- One canvas pixel of a job that produced output. -/
def atlasPixOf (r : Except String (Option AtlasOutput)) (x y : Nat) : Option RGBA :=
  match r with
  | Except.ok (some o) => some (o.atlas.pix x y)
  | _ => none

/-- The mapping text of a job that produced output. -/
def mappingTextOf : Except String (Option AtlasOutput) → Option String
  | Except.ok (some o) => some o.mappingText
  | _ => none

/-- The atlas file name of a job that produced output. -/
def atlasFileNameOf : Except String (Option AtlasOutput) → Option String
  | Except.ok (some o) => some o.atlasFileName
  | _ => none

/-- The mapping file name of a job that produced output. -/
def mappingFileNameOf : Except String (Option AtlasOutput) → Option String
  | Except.ok (some o) => some o.mappingFileName
  | _ => none

/-- The pixel region an icon pasted for index `i` occupies on the
canvas: the `icon_size`-square whose origin is the placement pixel of
`i`. -/
def inRegion (i cols s x y : Nat) : Prop :=
  placeCol i cols * s ≤ x ∧ x < placeCol i cols * s + s ∧
  placeRow i cols * s ≤ y ∧ y < placeRow i cols * s + s

instance (i cols s x y : Nat) : Decidable (inRegion i cols s x y) := by
  unfold inRegion; infer_instance

/-- Sorting the spec describes: lexicographically by the stable
identifier alone (the file base name with the extension stripped).
Modelled from the spec for comparison with the code's `sortFiles`. -/
def sortFilesByStemSpec (files : List SvgFile) : List SvgFile :=
  List.insertionSort (fun f g => strLeB f.stem g.stem = true) files

/-! ### Concrete fixtures used by witnesses and counterexamples -/

/-- A concrete 1-by-1 raster standing in for a rendered SVG. -/
def imgA : Img := ⟨1, 1, fun _ _ => ⟨0, 0, 0, 255⟩⟩

/-- A renderable icon source with stable identifier `a`. -/
def fA : SvgFile := ⟨"a", fun _ => Except.ok imgA⟩

/-- A renderable icon source whose identifier `a!` sorts after `a` by
stem but whose file name `a!.svg` sorts before `a.svg`. -/
def fBang : SvgFile := ⟨"a!", fun _ => Except.ok imgA⟩

/-- An icon source whose rendering raises. -/
def fBad : SvgFile := ⟨"bad", fun _ => Except.error "boom"⟩

/-- A renderable icon source with stable identifier `good`. -/
def fGood : SvgFile := ⟨"good", fun _ => Except.ok imgA⟩

/-- A concrete resampler standing in for PIL Lanczos. -/
def lz0 : ResizeFn := fun _ _ _ _ _ => ⟨1, 2, 3, 4⟩

/-- A concrete compositing function standing in for PIL masked paste. -/
def cp0 : CompositeFn := fun src _ => src

/-! ### Lemmas: code-point comparison is a total order -/

theorem char_eq_of_toNat_eq {a b : Char} (h : a.toNat = b.toNat) : a = b := by
  rw [← Char.ofNat_toNat a, ← Char.ofNat_toNat b, h]

theorem charListLt_asymm : ∀ {a b : List Char},
    charListLt a b = true → charListLt b a = false
  | [], [], h => by simp [charListLt] at h
  | _ :: _, [], h => by simp [charListLt] at h
  | [], _ :: _, _ => by simp [charListLt]
  | a :: as, b :: bs, h => by
    simp only [charListLt] at h ⊢
    rcases Nat.lt_trichotomy a.toNat b.toNat with h1 | h1 | h1
    · simp [h1, Nat.not_lt.mpr (Nat.le_of_lt h1)]
    · simp only [h1, Nat.lt_irrefl, if_false] at h ⊢
      exact charListLt_asymm h
    · simp [h1, Nat.not_lt.mpr (Nat.le_of_lt h1)] at h

theorem charListLt_trans : ∀ {a b c : List Char},
    charListLt a b = true → charListLt b c = true → charListLt a c = true
  | _, [], _, h1, _ => by simp [charListLt] at h1
  | _, _ :: _, [], _, h2 => by simp [charListLt] at h2
  | [], _ :: _, _ :: _, _, _ => by simp [charListLt]
  | a :: as, b :: bs, c :: cs, h1, h2 => by
    simp only [charListLt] at h1 h2 ⊢
    rcases Nat.lt_trichotomy a.toNat b.toNat with hab | hab | hab
    · rcases Nat.lt_trichotomy b.toNat c.toNat with hbc | hbc | hbc
      · have hac : a.toNat < c.toNat := Nat.lt_trans hab hbc
        simp [hac]
      · have hac : a.toNat < c.toNat := by omega
        simp [hac]
      · simp [Nat.lt_asymm hbc, hbc] at h2
    · rcases Nat.lt_trichotomy b.toNat c.toNat with hbc | hbc | hbc
      · have hac : a.toNat < c.toNat := by omega
        simp [hac]
      · have hac : a.toNat = c.toNat := hab.trans hbc
        simp [hab] at h1
        simp [hbc] at h2
        simp [hac, charListLt_trans h1 h2]
      · simp [Nat.lt_asymm hbc, hbc] at h2
    · simp [Nat.lt_asymm hab, hab] at h1

theorem charListLt_conn : ∀ {a b : List Char},
    charListLt a b = false → charListLt b a = false → a = b
  | [], [], _, _ => rfl
  | [], _ :: _, h1, _ => by simp [charListLt] at h1
  | _ :: _, [], _, h2 => by simp [charListLt] at h2
  | a :: as, b :: bs, h1, h2 => by
    simp only [charListLt] at h1 h2
    rcases Nat.lt_trichotomy a.toNat b.toNat with hab | hab | hab
    · simp [hab] at h1
    · simp only [hab, Nat.lt_irrefl, if_false] at h1 h2
      rw [char_eq_of_toNat_eq hab, charListLt_conn h1 h2]
    · simp [hab] at h2

theorem strLeB_total (s t : String) : strLeB s t = true ∨ strLeB t s = true := by
  unfold strLeB
  cases h : charListLt t.data s.data with
  | false => simp
  | true => simp [charListLt_asymm h]

theorem strLeB_trans {s t u : String} (h1 : strLeB s t = true)
    (h2 : strLeB t u = true) : strLeB s u = true := by
  unfold strLeB at h1 h2 ⊢
  simp only [Bool.not_eq_true'] at h1 h2 ⊢
  cases hus : charListLt u.data s.data with
  | false => rfl
  | true =>
    exfalso
    cases htu : charListLt t.data u.data with
    | true => exact absurd (charListLt_trans htu hus) (by simp [h1])
    | false =>
      have hut := charListLt_conn h2 htu
      rw [hut] at hus
      rw [h1] at hus
      exact Bool.noConfusion hus

theorem fileLeB_total (f g : SvgFile) : fileLeB f g = true ∨ fileLeB g f = true :=
  strLeB_total (fileName f) (fileName g)

theorem fileLeB_trans {f g h : SvgFile} (h1 : fileLeB f g = true)
    (h2 : fileLeB g h = true) : fileLeB f h = true :=
  strLeB_trans h1 h2

theorem sortFiles_perm (files : List SvgFile) :
    List.Perm (sortFiles files) files :=
  List.perm_insertionSort _ files

theorem sortFiles_sorted (files : List SvgFile) :
    List.Pairwise (fun f g => fileLeB f g = true) (sortFiles files) := by
  haveI : IsTotal SvgFile (fun f g => fileLeB f g = true) := ⟨fileLeB_total⟩
  haveI : IsTrans SvgFile (fun f g => fileLeB f g = true) :=
    ⟨fun _ _ _ => fileLeB_trans⟩
  exact List.sorted_insertionSort _ files

/-! ### Lemmas: enumeration -/

theorem enumIdx_getD {α : Type} (d : α) :
    ∀ (l : List α) (n i : Nat), i < l.length →
      (enumIdx n l).getD i (0, d) = (n + i, l.getD i d)
  | [], _, i, h => absurd h (by simp)
  | a :: l, n, 0, _ => by simp [enumIdx]
  | a :: l, n, i + 1, h => by
    simp only [enumIdx, List.getD_cons_succ]
    rw [enumIdx_getD d l (n + 1) i (by simpa using h)]
    congr 1
    omega

theorem mem_enumIdx_lt {α : Type} :
    ∀ {l : List α} {n : Nat} {p : Nat × α}, p ∈ enumIdx n l → n ≤ p.1 ∧ p.1 < n + l.length
  | [], _, _, h => absurd h (by simp [enumIdx])
  | a :: l, n, p, h => by
    simp only [enumIdx, List.mem_cons] at h
    rcases h with h | h
    · subst h; simp
    · have := mem_enumIdx_lt h
      simp only [List.length_cons]
      omega

/-! ### Lemmas: rendering success and failure -/

theorem svg_to_white_png_ok (lz : ResizeFn) (f : SvgFile) (s os : Nat)
    (hs : 1 ≤ s) (h : isOkImg (f.content os) = true) :
    svg_to_white_png lz f s os = Except.ok (whiteIcon lz f s os) := by
  unfold svg_to_white_png whiteIcon
  cases hc : f.content os with
  | error e => rw [hc] at h; exact absurd h (by simp [isOkImg])
  | ok img => simp [okImg, resizeModel, Nat.pos_iff_ne_zero.mp hs]

theorem svg_to_white_png_error (lz : ResizeFn) (f : SvgFile) (s os : Nat)
    (h : isOkImg (f.content os) = false) :
    ∃ e, svg_to_white_png lz f s os = Except.error e := by
  unfold svg_to_white_png
  cases hc : f.content os with
  | error e => exact ⟨e, rfl⟩
  | ok img => rw [hc] at h; exact absurd h (by simp [isOkImg])

theorem svg_to_white_png_size_zero (lz : ResizeFn) (f : SvgFile) (os : Nat)
    (h : isOkImg (f.content os) = true) :
    svg_to_white_png lz f 0 os = Except.error "height and width must be > 0" := by
  unfold svg_to_white_png
  cases hc : f.content os with
  | error e => rw [hc] at h; exact absurd h (by simp [isOkImg])
  | ok img => simp [resizeModel]

/-! ### Lemmas: the assembly loop -/

theorem atlasFold_ok (lz : ResizeFn) (cp : CompositeFn) (cols s os : Nat)
    (hs : 1 ≤ s) :
    ∀ (fs : List SvgFile) (idx : Nat) (atlas : Img) (lines : List String),
      (∀ f ∈ fs, isOkImg (f.content os) = true) →
      atlasFold lz cp cols s os fs idx atlas lines =
        Except.ok ((enumIdx idx fs).foldl (pasteStep lz cp cols s os) atlas,
          lines ++ (enumIdx idx fs).map (lineOfPair cols))
  | [], idx, atlas, lines, _ => by simp [atlasFold, enumIdx]
  | f :: fs, idx, atlas, lines, hall => by
    have hf : isOkImg (f.content os) = true := hall f (List.mem_cons_self f fs)
    rw [atlasFold, svg_to_white_png_ok lz f s os hs hf]
    dsimp only
    rw [atlasFold_ok lz cp cols s os hs fs (idx + 1) _ _
      (fun g hg => hall g (List.mem_cons_of_mem f hg))]
    simp [enumIdx, pasteStep, lineOfPair]

theorem atlasFold_error (lz : ResizeFn) (cp : CompositeFn) (cols s os : Nat) :
    ∀ (fs : List SvgFile) (idx : Nat) (atlas : Img) (lines : List String)
      (f : SvgFile), f ∈ fs → isOkImg (f.content os) = false →
      ∃ e, atlasFold lz cp cols s os fs idx atlas lines = Except.error e
  | [], _, _, _, f, hf, _ => absurd hf (by simp)
  | g :: fs, idx, atlas, lines, f, hf, hbad => by
    cases hsw : svg_to_white_png lz g s os with
    | error e => exact ⟨e, by rw [atlasFold, hsw]⟩
    | ok icon =>
      rw [atlasFold, hsw]
      dsimp only
      rcases List.mem_cons.mp hf with rfl | hmem
      · obtain ⟨e, he⟩ := svg_to_white_png_error lz f s os hbad
        rw [he] at hsw
        exact absurd hsw (by simp)
      · exact atlasFold_error lz cp cols s os fs (idx + 1) _ _ f hmem hbad

theorem atlasFold_size_zero (lz : ResizeFn) (cp : CompositeFn) (cols os : Nat)
    (g : SvgFile) (fs : List SvgFile) (idx : Nat) (atlas : Img)
    (lines : List String) (hg : isOkImg (g.content os) = true) :
    atlasFold lz cp cols 0 os (g :: fs) idx atlas lines =
      Except.error "height and width must be > 0" := by
  rw [atlasFold, svg_to_white_png_size_zero lz g os hg]

theorem foldl_pasteStep_width (lz : ResizeFn) (cp : CompositeFn) (cols s os : Nat) :
    ∀ (l : List (Nat × SvgFile)) (canvas : Img),
      (l.foldl (pasteStep lz cp cols s os) canvas).width = canvas.width
  | [], _ => rfl
  | p :: l, canvas => by
    rw [List.foldl_cons, foldl_pasteStep_width lz cp cols s os l _]
    rfl

theorem foldl_pasteStep_height (lz : ResizeFn) (cp : CompositeFn) (cols s os : Nat) :
    ∀ (l : List (Nat × SvgFile)) (canvas : Img),
      (l.foldl (pasteStep lz cp cols s os) canvas).height = canvas.height
  | [], _ => rfl
  | p :: l, canvas => by
    rw [List.foldl_cons, foldl_pasteStep_height lz cp cols s os l _]
    rfl

theorem pasteImage_pix_outside (cp : CompositeFn) (canvas icon : Img) (px py x y : Nat)
    (h : ¬(px ≤ x ∧ x < px + icon.width ∧ py ≤ y ∧ y < py + icon.height)) :
    (pasteImage cp canvas icon px py).pix x y = canvas.pix x y := by
  simp only [pasteImage]
  exact if_neg h

theorem whiteIcon_width (lz : ResizeFn) (f : SvgFile) (s os : Nat) :
    (whiteIcon lz f s os).width = s := rfl

theorem whiteIcon_height (lz : ResizeFn) (f : SvgFile) (s os : Nat) :
    (whiteIcon lz f s os).height = s := rfl

theorem foldl_pasteStep_pix_outside (lz : ResizeFn) (cp : CompositeFn)
    (cols s os x y : Nat) :
    ∀ (l : List (Nat × SvgFile)) (canvas : Img),
      (∀ p ∈ l, ¬ inRegion p.1 cols s x y) →
      (l.foldl (pasteStep lz cp cols s os) canvas).pix x y = canvas.pix x y
  | [], _, _ => rfl
  | p :: l, canvas, h => by
    rw [List.foldl_cons, foldl_pasteStep_pix_outside lz cp cols s os x y l _
      (fun q hq => h q (List.mem_cons_of_mem p hq))]
    exact pasteImage_pix_outside cp canvas _ _ _ x y (h p (List.mem_cons_self p l))

/-! ### Lemmas: row count is the ceiling of the division -/

theorem gridRows_ge (N cols : Nat) (hc : 1 ≤ cols) : N ≤ cols * gridRows N cols := by
  rcases Nat.eq_zero_or_pos N with h0 | hN
  · subst h0; simp
  · have hrw : N + cols - 1 = (N - 1) + cols := by omega
    unfold gridRows
    rw [hrw, Nat.add_div_right _ hc, Nat.mul_add, Nat.mul_one]
    have key := Nat.div_add_mod (N - 1) cols
    have hm : (N - 1) % cols < cols := Nat.mod_lt _ hc
    omega

theorem gridRows_le (N cols r : Nat) (hc : 1 ≤ cols) (h : N ≤ cols * r) :
    gridRows N cols ≤ r := by
  unfold gridRows
  have hb : N + cols - 1 ≤ cols * r + (cols - 1) := by omega
  calc (N + cols - 1) / cols ≤ (cols * r + (cols - 1)) / cols := Nat.div_le_div_right hb
    _ = r + (cols - 1) / cols := Nat.mul_add_div hc r (cols - 1)
    _ = r := by rw [Nat.div_eq_of_lt (by omega), Nat.add_zero]

/-! ### Lemma: the successful run of `create_texture_atlas`, characterized -/

theorem createTextureAtlasWith_ok (lz : ResizeFn) (cp : CompositeFn)
    (cols s os : Nat) (files : List SvgFile) (hs : 1 ≤ s)
    (hne : files ≠ []) (hall : ∀ f ∈ files, isOkImg (f.content os) = true) :
    createTextureAtlasWith lz cp cols s os files =
      Except.ok (some
        { atlas := (enumIdx 0 (sortFiles files)).foldl (pasteStep lz cp cols s os)
            (emptyCanvas (cols * s) (gridRows (sortFiles files).length cols * s))
          atlasFileName := "texture_atlas_" ++ toString cols ++ "x" ++
            toString (gridRows (sortFiles files).length cols) ++ "_" ++
            toString s ++ "px.png"
          mappingFileName := "icon_mapping_" ++ toString s ++ "px.txt"
          mappingText := mappingHeader s cols (gridRows (sortFiles files).length cols) ++
            String.join ((enumIdx 0 (sortFiles files)).map (lineOfPair cols)) }) := by
  have hsne : (sortFiles files).isEmpty = false := by
    cases hsf : sortFiles files with
    | nil =>
      have hp := sortFiles_perm files
      rw [hsf] at hp
      exact absurd hp.symm.eq_nil hne
    | cons a l => rfl
  have hall2 : ∀ f ∈ sortFiles files, isOkImg (f.content os) = true :=
    fun f hf => hall f ((sortFiles_perm files).mem_iff.mp hf)
  unfold createTextureAtlasWith
  simp only [hsne, Bool.false_eq_true, if_false,
    atlasFold_ok lz cp cols s os hs (sortFiles files) 0 _ [] hall2, List.nil_append]

/-- A non-empty renderable set at icon size 0 aborts inside the first
`svg_to_white_png` call with Pillow's resize error, exactly like the
Python loop, producing no output. -/
theorem createTextureAtlasWith_size_zero (lz : ResizeFn) (cp : CompositeFn)
    (cols os : Nat) (files : List SvgFile)
    (hne : files ≠ []) (hall : ∀ f ∈ files, isOkImg (f.content os) = true) :
    createTextureAtlasWith lz cp cols 0 os files =
      Except.error "height and width must be > 0" := by
  cases hsf : sortFiles files with
  | nil =>
    have hp := sortFiles_perm files
    rw [hsf] at hp
    exact absurd hp.symm.eq_nil hne
  | cons g rest =>
    have hg : isOkImg (g.content os) = true := by
      refine hall g ((sortFiles_perm files).mem_iff.mp ?_)
      rw [hsf]
      exact List.mem_cons_self g rest
    unfold createTextureAtlasWith
    simp only [hsf, List.isEmpty_cons, Bool.false_eq_true, if_false,
      atlasFold_size_zero lz cp cols os g rest 0 _ [] hg]

/-! ### The claims -/

/-- Claim C1: for every non-empty ordered icon list and positive icon
size, the Atlas Assembler and the Index Writer use the same placement
for each
icon: the run's atlas is the fold pasting, for each enumerated pair
`(i, f)` of the sorted list, the icon rendered from `f` at pixel origin
`(placeCol i cols * s, placeRow i cols * s)`, while the mapping text
joins, over the same enumerated pairs, the line carrying the same
index `i`, the same identifier `f.stem` and the same column and row;
and the `i`-th enumerated pair is `(i, i-th sorted file)`, so no
entry's atlas region and index record can disagree. -/
theorem atlas_and_index_share_placement (lz : ResizeFn) (cp : CompositeFn)
    (cols s os : Nat) (files : List SvgFile) (hs : 1 ≤ s)
    (hne : files ≠ []) (hall : ∀ f ∈ files, isOkImg (f.content os) = true) :
    atlasImgOf (createTextureAtlasWith lz cp cols s os files) =
      some ((enumIdx 0 (sortFiles files)).foldl (pasteStep lz cp cols s os)
        (emptyCanvas (cols * s) (gridRows (sortFiles files).length cols * s)))
    ∧ mappingTextOf (createTextureAtlasWith lz cp cols s os files) =
      some (mappingHeader s cols (gridRows (sortFiles files).length cols) ++
        String.join ((enumIdx 0 (sortFiles files)).map (lineOfPair cols)))
    ∧ ∀ i, i < (sortFiles files).length →
        (enumIdx 0 (sortFiles files)).getD i (0, defaultSvg) =
          (i, (sortFiles files).getD i defaultSvg) := by
  rw [createTextureAtlasWith_ok lz cp cols s os files hs hne hall]
  refine ⟨rfl, rfl, fun i hi => ?_⟩
  rw [enumIdx_getD defaultSvg _ 0 i hi, Nat.zero_add]

/-- Witness for C1 at a concrete one-icon set. -/
theorem atlas_and_index_share_placement_witness :
    ((1 : Nat) ≤ 16)
    ∧ ([fA] ≠ ([] : List SvgFile))
    ∧ (∀ f ∈ [fA], isOkImg (f.content 4) = true)
    ∧ (atlasImgOf (createTextureAtlasWith lz0 cp0 20 16 4 [fA]) =
        some ((enumIdx 0 (sortFiles [fA])).foldl (pasteStep lz0 cp0 20 16 4)
          (emptyCanvas (20 * 16) (gridRows (sortFiles [fA]).length 20 * 16)))
      ∧ mappingTextOf (createTextureAtlasWith lz0 cp0 20 16 4 [fA]) =
        some (mappingHeader 16 20 (gridRows (sortFiles [fA]).length 20) ++
          String.join ((enumIdx 0 (sortFiles [fA])).map (lineOfPair 20)))
      ∧ ∀ i, i < (sortFiles [fA]).length →
          (enumIdx 0 (sortFiles [fA])).getD i (0, defaultSvg) =
            (i, (sortFiles [fA]).getD i defaultSvg)) :=
  ⟨by decide, by simp,
   by intro f hf; simp only [List.mem_singleton] at hf; subst hf; rfl,
   atlas_and_index_share_placement lz0 cp0 20 16 4 [fA] (by decide) (by simp)
     (by intro f hf; simp only [List.mem_singleton] at hf; subst hf; rfl)⟩

/-- Claim C2: grid layout: the placement formulas, the row count as
the least number of full rows covering the count (the ceiling of count
over columns), the canvas dimensions `(cols*s, rows*s)` of an actual
run; and the concrete scenario: 23 icons at 20 columns give 2 rows and
index 20 lands at column 0, row 1. -/
theorem grid_layout_formulas (cols s N : Nat) (hc : 1 ≤ cols) (hs : 1 ≤ s) :
    (∀ i, i < N →
      placeCol i cols = i % cols ∧ placeRow i cols = i / cols ∧
      placePix i cols s = (i % cols * s, i / cols * s))
    ∧ (N ≤ cols * gridRows N cols ∧ ∀ r, N ≤ cols * r → gridRows N cols ≤ r)
    ∧ (gridRows 23 20 = 2 ∧ placeCol 20 20 = 0 ∧ placeRow 20 20 = 1)
    ∧ (∀ (lz : ResizeFn) (cp : CompositeFn) (os : Nat) (files : List SvgFile),
        files ≠ [] → (∀ f ∈ files, isOkImg (f.content os) = true) →
        (sortFiles files).length = N →
        atlasDimsOf (createTextureAtlasWith lz cp cols s os files) =
          some (cols * s, gridRows N cols * s)) := by
  refine ⟨fun i _ => ⟨rfl, rfl, rfl⟩,
    ⟨gridRows_ge N cols hc, fun r hr => gridRows_le N cols r hc hr⟩,
    ⟨by decide, by decide, by decide⟩, ?_⟩
  intro lz cp os files hne hall hlen
  rw [createTextureAtlasWith_ok lz cp cols s os files hs hne hall]
  simp only [atlasDimsOf]
  rw [foldl_pasteStep_width, foldl_pasteStep_height, hlen]
  rfl

/-- Witness for C2 at columns 20, icon size 16, count 23. -/
theorem grid_layout_formulas_witness :
    (1 ≤ 20 ∧ 1 ≤ 16)
    ∧ ((∀ i, i < 23 →
        placeCol i 20 = i % 20 ∧ placeRow i 20 = i / 20 ∧
        placePix i 20 16 = (i % 20 * 16, i / 20 * 16))
      ∧ (23 ≤ 20 * gridRows 23 20 ∧ ∀ r, 23 ≤ 20 * r → gridRows 23 20 ≤ r)
      ∧ (gridRows 23 20 = 2 ∧ placeCol 20 20 = 0 ∧ placeRow 20 20 = 1)
      ∧ (∀ (lz : ResizeFn) (cp : CompositeFn) (os : Nat) (files : List SvgFile),
          files ≠ [] → (∀ f ∈ files, isOkImg (f.content os) = true) →
          (sortFiles files).length = 23 →
          atlasDimsOf (createTextureAtlasWith lz cp 20 16 os files) =
            some (20 * 16, gridRows 23 20 * 16))) :=
  ⟨⟨by decide, by decide⟩, grid_layout_formulas 20 16 23 (by decide) (by decide)⟩

/-- Claim C3: placement injectivity: two distinct indices are assigned
distinct grid cells, and for a positive icon size their
icon-size-square pixel regions share no point. -/
theorem placement_injective (cols s i j N : Nat) (hc : 1 ≤ cols)
    (hi : i < N) (hj : j < N) (hij : i ≠ j) :
    (placeCol i cols, placeRow i cols) ≠ (placeCol j cols, placeRow j cols)
    ∧ (1 ≤ s → ∀ x y, ¬ (inRegion i cols s x y ∧ inRegion j cols s x y)) := by
  have key : ∀ a b : Nat, placeCol a cols = placeCol b cols →
      placeRow a cols = placeRow b cols → a = b := by
    intro a b h1 h2
    have h1m : a % cols = b % cols := h1
    have h2d : a / cols = b / cols := h2
    have ha := Nat.div_add_mod a cols
    have hb := Nat.div_add_mod b cols
    rw [← ha, ← hb, h1m, h2d]
  constructor
  · intro hpair
    have hcol : placeCol i cols = placeCol j cols := congrArg Prod.fst hpair
    have hrow : placeRow i cols = placeRow j cols := congrArg Prod.snd hpair
    exact hij (key i j hcol hrow)
  · intro hs1 x y hboth
    obtain ⟨hxi, hxj⟩ := hboth
    simp only [inRegion] at hxi hxj
    have di : x / s = placeCol i cols :=
      Nat.div_eq_of_lt_le hxi.1 (by rw [Nat.succ_mul]; exact hxi.2.1)
    have dj : x / s = placeCol j cols :=
      Nat.div_eq_of_lt_le hxj.1 (by rw [Nat.succ_mul]; exact hxj.2.1)
    have ri : y / s = placeRow i cols :=
      Nat.div_eq_of_lt_le hxi.2.2.1 (by rw [Nat.succ_mul]; exact hxi.2.2.2)
    have rj : y / s = placeRow j cols :=
      Nat.div_eq_of_lt_le hxj.2.2.1 (by rw [Nat.succ_mul]; exact hxj.2.2.2)
    exact hij (key i j (di ▸ dj) (ri ▸ rj))

/-- Witness for C3 at indices 0 and 1 of a 23-icon, 20-column grid. -/
theorem placement_injective_witness :
    (1 ≤ 20 ∧ 0 < 23 ∧ 1 < 23 ∧ (0 : Nat) ≠ 1)
    ∧ ((placeCol 0 20, placeRow 0 20) ≠ (placeCol 1 20, placeRow 1 20)
      ∧ (1 ≤ 16 → ∀ x y, ¬ (inRegion 0 20 16 x y ∧ inRegion 1 20 16 x y))) :=
  ⟨⟨by decide, by decide, by decide, by decide⟩,
   placement_injective 20 16 0 1 23 (by decide) (by decide) (by decide) (by decide)⟩

/-- Claim C4: the color normalization maps every in-bounds pixel with
positive alpha to `(255, 255, 255, alpha)` with the original alpha
preserved, leaves every pixel with alpha 0 unchanged, and keeps the
image dimensions; no other channel is inspected. -/
theorem normalize_white_preserves_alpha (img : Img) :
    (normalizeImage img).width = img.width
    ∧ (normalizeImage img).height = img.height
    ∧ ∀ x y, x < img.width → y < img.height →
        (0 < (img.pix x y).a →
          (normalizeImage img).pix x y = ⟨255, 255, 255, (img.pix x y).a⟩)
        ∧ ((img.pix x y).a = 0 → (normalizeImage img).pix x y = img.pix x y) := by
  refine ⟨rfl, rfl, fun x y hx hy => ⟨fun ha => ?_, fun ha => ?_⟩⟩
  · simp [normalizeImage, normalizePixel, hx, hy, Nat.pos_iff_ne_zero.mp ha]
  · simp [normalizeImage, normalizePixel, hx, hy, ha]

/-- Witness for C4 on a concrete opaque pixel. -/
theorem normalize_white_preserves_alpha_witness :
    ((0 : Nat) < imgA.width) ∧ ((0 : Nat) < imgA.height)
    ∧ (0 : Nat) < (imgA.pix 0 0).a
    ∧ (normalizeImage imgA).pix 0 0 = ⟨255, 255, 255, (imgA.pix 0 0).a⟩ :=
  ⟨by decide, by decide, by decide,
   ((normalize_white_preserves_alpha imgA).2.2 0 0 (by decide) (by decide)).1
     (by decide)⟩

/-- Claim C5: zero discovered sources make the job a no-op rather than
an error: the run returns without raising and produces neither an
atlas nor an index file (the skip is only printed). -/
theorem empty_set_is_noop (lz : ResizeFn) (cp : CompositeFn) (cols s os : Nat) :
    createTextureAtlasWith lz cp cols s os [] = Except.ok none
    ∧ create_texture_atlas lz cp [] s = Except.ok none :=
  ⟨rfl, rfl⟩

/-- Claim C6 counterexample: one unrenderable source among two does
not degrade to a fallback raster — with `bad.svg` failing to
rasterize, the whole job yields the propagated error and produces
neither atlas slots nor index entries. -/
theorem single_failure_aborts_counterexample :
    createTextureAtlasWith lz0 cp0 20 16 4 [fGood, fBad] = Except.error "boom" := rfl

/-- Claim C6 amended: a single unrenderable source is not recovered by
a fallback raster; the rasterization exception propagates out of
`create_texture_atlas`, aborting the whole job with no atlas and no
index produced. -/
theorem single_failure_aborts (lz : ResizeFn) (cp : CompositeFn)
    (cols s os : Nat) (files : List SvgFile) (f : SvgFile)
    (hf : f ∈ files) (hbad : isOkImg (f.content os) = false) :
    ∃ e, createTextureAtlasWith lz cp cols s os files = Except.error e := by
  have hfs : f ∈ sortFiles files := (sortFiles_perm files).mem_iff.mpr hf
  have hsne : (sortFiles files).isEmpty = false := by
    cases hsf : sortFiles files with
    | nil => rw [hsf] at hfs; exact absurd hfs (by simp)
    | cons a l => rfl
  obtain ⟨e, he⟩ := atlasFold_error lz cp cols s os (sortFiles files) 0
    (emptyCanvas (cols * s) (gridRows (sortFiles files).length cols * s)) [] f hfs hbad
  refine ⟨e, ?_⟩
  unfold createTextureAtlasWith
  simp only [hsne, Bool.false_eq_true, if_false, he]

/-- Witness for the amended C6 at a concrete two-icon set. -/
theorem single_failure_aborts_witness :
    (fBad ∈ [fGood, fBad]) ∧ isOkImg (fBad.content 4) = false
    ∧ ∃ e, createTextureAtlasWith lz0 cp0 20 16 4 [fGood, fBad] = Except.error e :=
  ⟨by simp, rfl,
   single_failure_aborts lz0 cp0 20 16 4 [fGood, fBad] fBad (by simp) rfl⟩

/-- Claim C7 counterexample: the code orders sources by their full
file name, not by the bare stable identifier: with identifiers `a` and
`a!` the code's order is `a!` (file `a!.svg`) before `a` (file
`a.svg`), while lexicographic order of the identifiers puts `a`
first — the first index entry names `a!`, not `a`. -/
theorem index_order_counterexample :
    (sortFiles [fA, fBang]).map SvgFile.stem = ["a!", "a"]
    ∧ (sortFilesByStemSpec [fA, fBang]).map SvgFile.stem = ["a", "a!"]
    ∧ (["a!", "a"] : List String) ≠ ["a", "a!"] :=
  ⟨rfl, rfl, by decide⟩

/-- Claim C7 amended: the index assignment order is fixed once at
discovery as the lexicographic order of the full file names
(identifier plus the `.svg` extension): the discovered set is
permuted into a list pairwise sorted by `fileLeB`, and, for any
positive icon size, the run's mapping text enumerates exactly that
list in order, the i-th record naming the i-th identifier of that
order. -/
theorem index_order_is_filename_lex (files : List SvgFile) :
    List.Perm (sortFiles files) files
    ∧ List.Pairwise (fun f g => fileLeB f g = true) (sortFiles files)
    ∧ ∀ (lz : ResizeFn) (cp : CompositeFn) (cols s os : Nat), 1 ≤ s →
        files ≠ [] → (∀ f ∈ files, isOkImg (f.content os) = true) →
        mappingTextOf (createTextureAtlasWith lz cp cols s os files) =
          some (mappingHeader s cols (gridRows (sortFiles files).length cols) ++
            String.join ((enumIdx 0 (sortFiles files)).map (lineOfPair cols))) := by
  refine ⟨sortFiles_perm files, sortFiles_sorted files,
    fun lz cp cols s os hs hne hall => ?_⟩
  rw [createTextureAtlasWith_ok lz cp cols s os files hs hne hall]
  rfl

/-- Witness for the amended C7 at the two-icon set with identifiers
`a` and `a!`. -/
theorem index_order_is_filename_lex_witness :
    ((1 : Nat) ≤ 16)
    ∧ ([fA, fBang] ≠ ([] : List SvgFile))
    ∧ (∀ f ∈ [fA, fBang], isOkImg (f.content 4) = true)
    ∧ List.Perm (sortFiles [fA, fBang]) [fA, fBang]
    ∧ List.Pairwise (fun f g => fileLeB f g = true) (sortFiles [fA, fBang])
    ∧ mappingTextOf (createTextureAtlasWith lz0 cp0 20 16 4 [fA, fBang]) =
        some (mappingHeader 16 20 (gridRows (sortFiles [fA, fBang]).length 20) ++
          String.join ((enumIdx 0 (sortFiles [fA, fBang])).map (lineOfPair 20))) :=
  ⟨by decide, by simp,
   by
    intro f hf
    simp only [List.mem_cons, List.not_mem_nil, or_false] at hf
    rcases hf with rfl | rfl <;> rfl,
   (index_order_is_filename_lex [fA, fBang]).1,
   (index_order_is_filename_lex [fA, fBang]).2.1,
   (index_order_is_filename_lex [fA, fBang]).2.2 lz0 cp0 20 16 4 (by decide) (by simp)
     (by
      intro f hf
      simp only [List.mem_cons, List.not_mem_nil, or_false] at hf
      rcases hf with rfl | rfl <;> rfl)⟩

/-- Claim C8: the supersample factor influences neither placement nor
index output: two successful runs on the same icon set and icon size
that differ only in the oversample factor produce identical mapping
text, identical canvas dimensions and identical output file names
(the placement arithmetic never takes the factor as an input). -/
theorem oversample_invariance (lz : ResizeFn) (cp : CompositeFn)
    (cols s os1 os2 : Nat) (files : List SvgFile)
    (h1 : ∀ f ∈ files, isOkImg (f.content os1) = true)
    (h2 : ∀ f ∈ files, isOkImg (f.content os2) = true) :
    mappingTextOf (createTextureAtlasWith lz cp cols s os1 files) =
      mappingTextOf (createTextureAtlasWith lz cp cols s os2 files)
    ∧ atlasDimsOf (createTextureAtlasWith lz cp cols s os1 files) =
      atlasDimsOf (createTextureAtlasWith lz cp cols s os2 files)
    ∧ atlasFileNameOf (createTextureAtlasWith lz cp cols s os1 files) =
      atlasFileNameOf (createTextureAtlasWith lz cp cols s os2 files)
    ∧ mappingFileNameOf (createTextureAtlasWith lz cp cols s os1 files) =
      mappingFileNameOf (createTextureAtlasWith lz cp cols s os2 files) := by
  rcases eq_or_ne files [] with rfl | hne
  · exact ⟨rfl, rfl, rfl, rfl⟩
  · rcases Nat.eq_zero_or_pos s with rfl | hs
    · rw [createTextureAtlasWith_size_zero lz cp cols os1 files hne h1,
        createTextureAtlasWith_size_zero lz cp cols os2 files hne h2]
      exact ⟨rfl, rfl, rfl, rfl⟩
    · rw [createTextureAtlasWith_ok lz cp cols s os1 files hs hne h1,
        createTextureAtlasWith_ok lz cp cols s os2 files hs hne h2]
      refine ⟨rfl, ?_, rfl, rfl⟩
      simp only [atlasDimsOf]
      rw [foldl_pasteStep_width, foldl_pasteStep_height,
        foldl_pasteStep_width, foldl_pasteStep_height]

/-- Witness for C8 with oversample factors 1 and 4. -/
theorem oversample_invariance_witness :
    (∀ f ∈ [fA], isOkImg (f.content 1) = true)
    ∧ (∀ f ∈ [fA], isOkImg (f.content 4) = true)
    ∧ (mappingTextOf (createTextureAtlasWith lz0 cp0 20 16 1 [fA]) =
        mappingTextOf (createTextureAtlasWith lz0 cp0 20 16 4 [fA])
      ∧ atlasDimsOf (createTextureAtlasWith lz0 cp0 20 16 1 [fA]) =
        atlasDimsOf (createTextureAtlasWith lz0 cp0 20 16 4 [fA])
      ∧ atlasFileNameOf (createTextureAtlasWith lz0 cp0 20 16 1 [fA]) =
        atlasFileNameOf (createTextureAtlasWith lz0 cp0 20 16 4 [fA])
      ∧ mappingFileNameOf (createTextureAtlasWith lz0 cp0 20 16 1 [fA]) =
        mappingFileNameOf (createTextureAtlasWith lz0 cp0 20 16 4 [fA])) :=
  ⟨by intro f hf; simp only [List.mem_singleton] at hf; subst hf; rfl,
   by intro f hf; simp only [List.mem_singleton] at hf; subst hf; rfl,
   oversample_invariance lz0 cp0 20 16 1 4 [fA]
     (by intro f hf; simp only [List.mem_singleton] at hf; subst hf; rfl)
     (by intro f hf; simp only [List.mem_singleton] at hf; subst hf; rfl)⟩

/-- Claim C9 counterexample: not every invocation with icon_size < 1
fails — with icon_size = 0 and an empty source set the job takes the
empty-set early return and completes without raising any error at
all, let alone an InvalidConfig one. -/
theorem no_config_validation_counterexample :
    createTextureAtlasWith lz0 cp0 20 0 4 [] = Except.ok none := rfl

/-- Claim C9 amended: the code never validates its configuration:
columns < 1 is unreachable because `GRID_COLS = 20` is a constant, and
icon_size = 0 is not rejected up front — an empty source set still
completes as a no-op, while a non-empty renderable set aborts with the
`ValueError("height and width must be > 0")` Pillow's resize raises
while rasterizing the first icon: an incidental rasterization failure,
not an InvalidConfig validation error, and — being uncaught — fatal to
the whole batch rather than the affected job only. -/
theorem no_config_validation (lz : ResizeFn) (cp : CompositeFn)
    (os : Nat) (files : List SvgFile) :
    createTextureAtlasWith lz cp GRID_COLS 0 os [] = Except.ok none
    ∧ (files ≠ [] → (∀ f ∈ files, isOkImg (f.content os) = true) →
        createTextureAtlasWith lz cp GRID_COLS 0 os files =
          Except.error "height and width must be > 0")
    ∧ GRID_COLS = 20 :=
  ⟨rfl,
   fun hne hall => createTextureAtlasWith_size_zero lz cp GRID_COLS os files hne hall,
   rfl⟩

/-- Witness for the amended C9 at icon size 0 with one renderable icon. -/
theorem no_config_validation_witness :
    ([fA] ≠ ([] : List SvgFile)) ∧ (∀ f ∈ [fA], isOkImg (f.content 4) = true)
    ∧ createTextureAtlasWith lz0 cp0 GRID_COLS 0 4 [] = Except.ok none
    ∧ createTextureAtlasWith lz0 cp0 GRID_COLS 0 4 [fA] =
        Except.error "height and width must be > 0"
    ∧ GRID_COLS = 20 :=
  ⟨by simp, by intro f hf; simp only [List.mem_singleton] at hf; subst hf; rfl,
   (no_config_validation lz0 cp0 4 [fA]).1,
   (no_config_validation lz0 cp0 4 [fA]).2.1 (by simp)
     (by intro f hf; simp only [List.mem_singleton] at hf; subst hf; rfl),
   (no_config_validation lz0 cp0 4 [fA]).2.2⟩

/-- Claim C10: the canvas starts fully transparent and the only
mutations are the pastes at the N computed placements, so after
assembly every canvas pixel outside the union of the N placed
icon-size-square regions is still `(0, 0, 0, 0)`. -/
theorem outside_regions_transparent (lz : ResizeFn) (cp : CompositeFn)
    (cols s os : Nat) (files : List SvgFile) (x y : Nat)
    (hall : ∀ f ∈ files, isOkImg (f.content os) = true)
    (hx : x < cols * s) (hy : y < gridRows (sortFiles files).length cols * s)
    (hout : ∀ i, i < (sortFiles files).length → ¬ inRegion i cols s x y) :
    ∀ p, atlasPixOf (createTextureAtlasWith lz cp cols s os files) x y = some p →
      p = clearPixel := by
  intro p hp
  rcases eq_or_ne files [] with rfl | hne
  · have hnil : createTextureAtlasWith lz cp cols s os [] = Except.ok none := rfl
    rw [hnil] at hp
    exact absurd hp (by simp [atlasPixOf])
  · rcases Nat.eq_zero_or_pos s with rfl | hs
    · rw [createTextureAtlasWith_size_zero lz cp cols os files hne hall] at hp
      exact absurd hp (by simp [atlasPixOf])
    · rw [createTextureAtlasWith_ok lz cp cols s os files hs hne hall] at hp
      simp only [atlasPixOf, Option.some.injEq] at hp
      have hreg : ∀ q ∈ enumIdx 0 (sortFiles files), ¬ inRegion q.1 cols s x y := by
        intro q hq
        have hlt := mem_enumIdx_lt hq
        have h2 := hlt.2
        exact hout q.1 (by omega)
      rw [foldl_pasteStep_pix_outside lz cp cols s os x y _ _ hreg] at hp
      exact hp.symm

/-- Witness for C10: a one-icon atlas at icon size 1; the pixel at
(5, 0) lies in an unused cell and stays fully transparent. -/
theorem outside_regions_transparent_witness :
    (∀ f ∈ [fA], isOkImg (f.content 4) = true)
    ∧ 5 < 20 * 1
    ∧ 0 < gridRows (sortFiles [fA]).length 20 * 1
    ∧ (∀ i, i < (sortFiles [fA]).length → ¬ inRegion i 20 1 5 0)
    ∧ (∀ p, atlasPixOf (createTextureAtlasWith lz0 cp0 20 1 4 [fA]) 5 0 = some p →
        p = clearPixel) :=
  ⟨by intro f hf; simp only [List.mem_singleton] at hf; subst hf; rfl,
   by decide,
   by decide,
   by
    intro i hi
    have hlen : (sortFiles [fA]).length = 1 := rfl
    have h0 : i = 0 := by omega
    subst h0
    decide,
   outside_regions_transparent lz0 cp0 20 1 4 [fA] 5 0
     (by intro f hf; simp only [List.mem_singleton] at hf; subst hf; rfl)
     (by decide) (by decide)
     (by
      intro i hi
      have hlen : (sortFiles [fA]).length = 1 := rfl
      have h0 : i = 0 := by omega
      subst h0
      decide)⟩
